import Mathlib

/-!
A shallow embedding of the bookstore CRUD REST API
(`geisonsn/rest-api-golang-gin-gorm`): the `Book` model, the GORM-backed
storage operations, the Gin request handlers from `controllers/books.go`
(as shown in the repository README), and the route table from `main.go`.
State is an explicit in-memory table; every handler is a pure function
from the database state and the request to the new state, the HTTP
response, and the list of storage calls it performed.
-/

/-- The `Book` model (`models/book.go`): `ID uint`, `Title string`,
`Author string`, serialized as `id`/`title`/`author`. -/
structure Book where
  id : Nat
  title : String
  author : String
deriving DecidableEq

/-- The persistent store: the `books` table plus the id counter the
storage backend uses to assign the next primary key. -/
structure DB where
  books : List Book
  nextId : Nat
deriving DecidableEq

/-- Value of a decimal digit character, `none` on any other character. -/
def charDigit? (c : Char) : Option Nat :=
  if 48 ≤ c.toNat ∧ c.toNat ≤ 57 then some (c.toNat - 48) else none

/-- Decimal reading of a character list, `none` as soon as a
non-digit appears. -/
def parseDigitsAux : List Char → Nat → Option Nat
  | [], acc => some acc
  | c :: cs, acc =>
    match charDigit? c with
    | none => none
    | some d => parseDigitsAux cs (acc * 10 + d)

/-- Numeric reading of a string: the denoted number when the string is
nonempty and all digits, otherwise `none`. -/
def parseNat? (s : String) : Option Nat :=
  match s.data with
  | [] => none
  | c :: cs => parseDigitsAux (c :: cs) 0

/-- GORM `Where("id = ?", s)` against the integer primary key: the raw
path parameter `s` matches row id `n` exactly when `s` reads as that
number; a malformed/non-numeric parameter matches nothing. -/
def matchesId (s : String) (n : Nat) : Bool :=
  parseNat? s = some n

/-- GORM `DB.Find(&books)`: every row in the table. -/
def dbFind (db : DB) : List Book :=
  db.books

/-- GORM `DB.Where("id = ?", s).First(&book)`: the first row whose id
matches the parameter, or `none` (`ErrRecordNotFound`). -/
def dbFirstById (db : DB) (s : String) : Option Book :=
  db.books.find? (fun b => matchesId s b.id)

/-- GORM `DB.Create(&book)` on a book with zero ID: storage assigns the
next id, inserts the row, and returns the persisted record. -/
def dbCreate (db : DB) (title author : String) : DB × Book :=
  let b : Book := ⟨db.nextId, title, author⟩
  (⟨db.books ++ [b], db.nextId + 1⟩, b)

/-- The `UpdateBookInput` schema (`controllers/books.go`): both fields
optional, absent JSON fields bind to the zero value `""`. -/
structure UpdateBookInput where
  Title : String
  Author : String
deriving DecidableEq

/-- GORM `Updates` with a struct argument updates only the non-zero
(non-empty) fields of the input over the existing record. -/
def applyUpdates (b : Book) (input : UpdateBookInput) : Book :=
  { b with
    title := if input.Title = "" then b.title else input.Title
    author := if input.Author = "" then b.author else input.Author }

/-- GORM `DB.Model(&book).Updates(input)`: merge the non-zero input
fields into the row with `book`'s primary key and return the updated
in-memory model. -/
def dbUpdates (db : DB) (b : Book) (input : UpdateBookInput) : DB × Book :=
  let b' := applyUpdates b input
  (⟨db.books.map (fun x => if x.id = b.id then b' else x), db.nextId⟩, b')

/-- GORM `DB.Delete(&book)`: hard-delete the row with `book`'s primary
key. -/
def dbDelete (db : DB) (b : Book) : DB :=
  ⟨db.books.filter (fun x => x.id ≠ b.id), db.nextId⟩

/-- A request body as the JSON binder sees it: unparseable JSON, or an
object whose `id`, `title` and `author` members may each be present or
absent. -/
inductive JsonBody where
  | malformed
  | fields (idField : Option Nat) (title : Option String) (author : Option String)
deriving DecidableEq

/-- The `CreateBookInput` schema (`controllers/books.go`): `Title` and
`Author` both carry `binding:"required"`; there is no ID field. -/
structure CreateBookInput where
  Title : String
  Author : String
deriving DecidableEq

/-- Gin `c.ShouldBindJSON(&input)` for `CreateBookInput`: fails on
unparseable JSON, and the `required` tag rejects an absent field and the
zero value `""` alike. Any `id` member of the body is ignored because
the schema has no such field. -/
def bindCreate : JsonBody → Except String CreateBookInput
  | .malformed => .error "invalid character"
  | .fields _ t a =>
    let tv := t.getD ""
    let av := a.getD ""
    if tv = "" then
      .error "Field validation for Title failed on the required tag"
    else if av = "" then
      .error "Field validation for Author failed on the required tag"
    else
      .ok ⟨tv, av⟩

/-- Gin `c.ShouldBindJSON(&input)` for `UpdateBookInput`: fails only on
unparseable JSON; absent fields bind to `""`. -/
def bindUpdate : JsonBody → Except String UpdateBookInput
  | .malformed => .error "invalid character"
  | .fields _ t a => .ok ⟨t.getD "", a.getD ""⟩

/-- A response body: one of the `{"data": ...}` envelopes or the
`{"error": ...}` envelope. -/
inductive RespBody where
  | dataBook (b : Book)
  | dataBooks (l : List Book)
  | dataBool (b : Bool)
  | errMsg (m : String)
deriving DecidableEq

/-- An HTTP response: status code and JSON body. -/
structure HttpResponse where
  status : Nat
  body : RespBody
deriving DecidableEq

/-- A storage call a handler may issue, as recorded in its trace. -/
inductive StorageOp where
  | findAll
  | firstById (s : String)
  | createRow (title author : String)
  | updatesRow (id : Nat) (input : UpdateBookInput)
  | deleteRow (id : Nat)
deriving DecidableEq

/-- Whether a storage call mutates the store. -/
def StorageOp.isMutation : StorageOp → Bool
  | .createRow _ _ => true
  | .updatesRow _ _ => true
  | .deleteRow _ => true
  | _ => false

/-- The outcome of running one handler: the new database state, the
response sent, and the storage calls made, in order. -/
structure HandlerResult where
  db : DB
  resp : HttpResponse
  trace : List StorageOp
deriving DecidableEq

/-- Handler `FindBooks` (`GET /books`): returns every row wrapped in the
data envelope; the `DB.Find` error is discarded. -/
def FindBooks (db : DB) : HandlerResult :=
  ⟨db, ⟨200, .dataBooks (dbFind db)⟩, [.findAll]⟩

/-- Handler `FindBook` (`GET /books/:id`): first row matching the path
parameter, or status 400 with the fixed not-found message. -/
def FindBook (db : DB) (idParam : String) : HandlerResult :=
  match dbFirstById db idParam with
  | none => ⟨db, ⟨400, .errMsg "Record not found!"⟩, [.firstById idParam]⟩
  | some b => ⟨db, ⟨200, .dataBook b⟩, [.firstById idParam]⟩

/-- Handler `CreateBook` (`POST /books`): bind-and-validate the body,
then `DB.Create` and answer 200 with the record. The handler discards
the error of `DB.Create`; `createFails` says whether that storage call
fails, in which case the row is not inserted, the model keeps its zero
ID, and the handler still answers 200. -/
def CreateBook (createFails : Bool) (db : DB) (body : JsonBody) : HandlerResult :=
  match bindCreate body with
  | .error e => ⟨db, ⟨400, .errMsg e⟩, []⟩
  | .ok input =>
    if createFails then
      ⟨db, ⟨200, .dataBook ⟨0, input.Title, input.Author⟩⟩,
        [.createRow input.Title input.Author]⟩
    else
      let r := dbCreate db input.Title input.Author
      ⟨r.1, ⟨200, .dataBook r.2⟩, [.createRow input.Title input.Author]⟩

/-- Handler `UpdateBook` (`PUT /books/:id` per `main.go`): look the
record up first (400 not-found on failure), then bind-and-validate the
body (400 with the binder message on failure), then `Updates` and answer
200 with the merged record. The handler discards the error of `Updates`;
`updFails` says whether that storage call fails, in which case the table
is unchanged but the in-memory model was already merged and the handler
still answers 200 with it. -/
def UpdateBook (updFails : Bool) (db : DB) (idParam : String) (body : JsonBody) : HandlerResult :=
  match dbFirstById db idParam with
  | none => ⟨db, ⟨400, .errMsg "Record not found!"⟩, [.firstById idParam]⟩
  | some book =>
    match bindUpdate body with
    | .error e => ⟨db, ⟨400, .errMsg e⟩, [.firstById idParam]⟩
    | .ok input =>
      if updFails then
        ⟨db, ⟨200, .dataBook (applyUpdates book input)⟩,
          [.firstById idParam, .updatesRow book.id input]⟩
      else
        let r := dbUpdates db book input
        ⟨r.1, ⟨200, .dataBook r.2⟩, [.firstById idParam, .updatesRow book.id input]⟩

/-- Handler `DeleteBook` (`DELETE /books/:id`): look the record up first
(400 not-found on failure), then `DB.Delete` and answer 200 with
`{"data": true}`. The handler discards the error of `DB.Delete`;
`delFails` says whether that storage call fails, in which case the row
stays but the handler still answers 200 with `true`. -/
def DeleteBook (delFails : Bool) (db : DB) (idParam : String) : HandlerResult :=
  match dbFirstById db idParam with
  | none => ⟨db, ⟨400, .errMsg "Record not found!"⟩, [.firstById idParam]⟩
  | some book =>
    if delFails then
      ⟨db, ⟨200, .dataBool true⟩, [.firstById idParam, .deleteRow book.id]⟩
    else
      ⟨dbDelete db book, ⟨200, .dataBool true⟩, [.firstById idParam, .deleteRow book.id]⟩

/-- An HTTP method. -/
inductive Method where
  | GET
  | POST
  | PUT
  | PATCH
  | DELETE
deriving DecidableEq

/-- A request path of this API: `/books` or `/books/{id}` with its raw
path parameter. -/
inductive ReqPath where
  | books
  | booksId (idParam : String)
deriving DecidableEq

/-- The five registered controllers, as names for the route table. -/
inductive HandlerName where
  | findBooks
  | findBook
  | createBook
  | updateBook
  | deleteBook
deriving DecidableEq

/-- The route table of `main.go`: `GET /books`, `GET /books/:id`,
`POST /books`, `PUT /books/:id`, `DELETE /books/:id`. Any other
method/path pair is unrouted (Gin answers its default 404 and no
controller runs). -/
def route : Method → ReqPath → Option HandlerName
  | .GET, .books => some .findBooks
  | .GET, .booksId _ => some .findBook
  | .POST, .books => some .createBook
  | .PUT, .booksId _ => some .updateBook
  | .DELETE, .booksId _ => some .deleteBook
  | _, _ => none

/-- One fault-free request end to end: dispatch through `main.go`'s
route table and run the controller; `none` when no route matches. -/
def handleRequest (db : DB) (m : Method) (p : ReqPath) (body : JsonBody) :
    Option HandlerResult :=
  match m, p with
  | .GET, .books => some (FindBooks db)
  | .GET, .booksId s => some (FindBook db s)
  | .POST, .books => some (CreateBook false db body)
  | .PUT, .booksId s => some (UpdateBook false db s body)
  | .DELETE, .booksId s => some (DeleteBook false db s)
  | _, _ => none

/-- The startup outcome of `models.ConnectDatabase`. -/
inductive StartupResult where
  | started (db : DB)
  | panicked (msg : String)
deriving DecidableEq

/-- Startup (`models/setup.go`): `gorm.Open` either succeeds, yielding
an empty migrated store, or fails, in which case the process panics with
the fixed message and never serves traffic. -/
def ConnectDatabase (connOk : Bool) : StartupResult :=
  if connOk then .started ⟨[], 1⟩ else .panicked "Failed to connect to database!"

/-- Well-formed store: primary keys are pairwise distinct and every
assigned id is below the counter. -/
def WF (db : DB) : Prop :=
  db.books.Pairwise (fun a b => a.id ≠ b.id) ∧ ∀ b ∈ db.books, b.id < db.nextId

instance (db : DB) : Decidable (WF db) := by
  unfold WF; infer_instance

/-! Helper lemmas about id matching and well-formed stores. -/

theorem matchesId_iff {s : String} {n : Nat} :
    matchesId s n = true ↔ parseNat? s = some n := by
  simp [matchesId]

theorem matchesId_inj {s : String} {n m : Nat}
    (hn : matchesId s n = true) (hm : matchesId s m = true) : n = m := by
  rw [matchesId_iff] at hn hm
  exact Option.some.inj (hn ▸ hm)

theorem WF.id_inj {db : DB} (h : WF db) {x y : Book}
    (hx : x ∈ db.books) (hy : y ∈ db.books) (hid : x.id = y.id) : x = y := by
  by_contra hne
  exact h.1.forall (fun a b hab => (Ne.symm hab)) hx hy hne hid

theorem dbFirstById_mem {db : DB} {s : String} {b : Book}
    (h : dbFirstById db s = some b) : b ∈ db.books := by
  unfold dbFirstById at h
  exact List.mem_of_find?_eq_some h

theorem dbFirstById_matches {db : DB} {s : String} {b : Book}
    (h : dbFirstById db s = some b) : matchesId s b.id = true := by
  unfold dbFirstById at h
  have hp := List.find?_some h
  exact hp

theorem dbFirstById_none_iff {db : DB} {s : String} :
    dbFirstById db s = none ↔ ∀ b ∈ db.books, matchesId s b.id = false := by
  unfold dbFirstById
  rw [List.find?_eq_none]
  constructor
  · intro h b hb
    exact Bool.not_eq_true _ ▸ (by simpa using h b hb)
  · intro h b hb
    simp [h b hb]

/-- C5: for every id-taking operation (find-by-id, update, delete) and
every id path parameter that matches no stored record — because it is
malformed/non-numeric or simply absent — the response is the same fixed
client error, status 400 with body `{"error": "Record not found!"}`,
never a success, and the store is untouched. -/
theorem C5_unmatched_id_uniform_not_found (db : DB) (s : String) (body : JsonBody)
    (f : Bool) (h : ∀ b ∈ db.books, matchesId s b.id = false) :
    (FindBook db s).resp = ⟨400, .errMsg "Record not found!"⟩ ∧
    (UpdateBook f db s body).resp = ⟨400, .errMsg "Record not found!"⟩ ∧
    (DeleteBook f db s).resp = ⟨400, .errMsg "Record not found!"⟩ ∧
    (FindBook db s).db = db ∧
    (UpdateBook f db s body).db = db ∧
    (DeleteBook f db s).db = db := by
  have hnone : dbFirstById db s = none := dbFirstById_none_iff.mpr h
  refine ⟨?_, ?_, ?_, ?_, ?_, ?_⟩ <;> simp [FindBook, UpdateBook, DeleteBook, hnone]

/-- Witness for C5 at a store holding book 1 and the malformed
parameter `"abc"`. -/
theorem C5_unmatched_id_uniform_not_found_witness :
    (FindBook ⟨[⟨1, "t", "a"⟩], 2⟩ "abc").resp = ⟨400, .errMsg "Record not found!"⟩ ∧
    (UpdateBook false ⟨[⟨1, "t", "a"⟩], 2⟩ "abc" .malformed).resp
      = ⟨400, .errMsg "Record not found!"⟩ ∧
    (DeleteBook false ⟨[⟨1, "t", "a"⟩], 2⟩ "abc").resp
      = ⟨400, .errMsg "Record not found!"⟩ ∧
    (FindBook ⟨[⟨1, "t", "a"⟩], 2⟩ "abc").db = ⟨[⟨1, "t", "a"⟩], 2⟩ ∧
    (UpdateBook false ⟨[⟨1, "t", "a"⟩], 2⟩ "abc" .malformed).db = ⟨[⟨1, "t", "a"⟩], 2⟩ ∧
    (DeleteBook false ⟨[⟨1, "t", "a"⟩], 2⟩ "abc").db = ⟨[⟨1, "t", "a"⟩], 2⟩ :=
  C5_unmatched_id_uniform_not_found ⟨[⟨1, "t", "a"⟩], 2⟩ "abc" .malformed false (by decide)

/-- C10: in `UpdateBook` the existence check precedes body validation:
when the id matches no stored record, the response is the fixed
not-found error whatever the body is — malformed included — the store
is untouched, and the only storage call is the lookup. -/
theorem C10_update_lookup_precedes_body_check (db : DB) (s : String) (body : JsonBody)
    (f : Bool) (h : dbFirstById db s = none) :
    (UpdateBook f db s body).resp = ⟨400, .errMsg "Record not found!"⟩ ∧
    (UpdateBook f db s body).db = db ∧
    (UpdateBook f db s body).trace = [.firstById s] := by
  refine ⟨?_, ?_, ?_⟩ <;> simp [UpdateBook, h]

/-- Witness for C10 at an empty store, id `"7"` and a malformed body. -/
theorem C10_update_lookup_precedes_body_check_witness :
    (UpdateBook false ⟨[], 1⟩ "7" .malformed).resp = ⟨400, .errMsg "Record not found!"⟩ ∧
    (UpdateBook false ⟨[], 1⟩ "7" .malformed).db = ⟨[], 1⟩ ∧
    (UpdateBook false ⟨[], 1⟩ "7" .malformed).trace = [.firstById "7"] :=
  C10_update_lookup_precedes_body_check ⟨[], 1⟩ "7" .malformed false (by decide)

/-- C7: for every existing book, an update whose payload is the empty
object is legal and is a no-op: the response is 200 carrying the record
unmodified and the stored table is unchanged. -/
theorem C7_empty_patch_is_noop (db : DB) (s : String) (book : Book) (idf : Option Nat)
    (hwf : WF db) (hfind : dbFirstById db s = some book) :
    (UpdateBook false db s (.fields idf none none)).resp = ⟨200, .dataBook book⟩ ∧
    (UpdateBook false db s (.fields idf none none)).db = db := by
  have hmem := dbFirstById_mem hfind
  have happ : applyUpdates book ⟨"", ""⟩ = book := by
    simp [applyUpdates]
  have hpt : ∀ x ∈ db.books, (if x.id = book.id then book else x) = x := by
    intro x hx
    by_cases hid : x.id = book.id
    · rw [if_pos hid, hwf.id_inj hmem hx hid.symm]
    · rw [if_neg hid]
  have hmap : db.books.map (fun x => if x.id = book.id then book else x) = db.books := by
    rw [List.map_congr_left hpt]
    simp
  constructor
  · simp [UpdateBook, hfind, bindUpdate, dbUpdates, happ]
  · simp [UpdateBook, hfind, bindUpdate, dbUpdates, happ, hmap]

/-- Witness for C7 at a store holding book 1. -/
theorem C7_empty_patch_is_noop_witness :
    (UpdateBook false ⟨[⟨1, "t", "a"⟩], 2⟩ "1" (.fields none none none)).resp
      = ⟨200, .dataBook ⟨1, "t", "a"⟩⟩ ∧
    (UpdateBook false ⟨[⟨1, "t", "a"⟩], 2⟩ "1" (.fields none none none)).db
      = ⟨[⟨1, "t", "a"⟩], 2⟩ :=
  C7_empty_patch_is_noop ⟨[⟨1, "t", "a"⟩], 2⟩ "1" ⟨1, "t", "a"⟩ none (by decide) (by decide)

/-- C6: deleting an existing book answers `{"data": true}` and removes
the row: fetching the same id afterwards is not-found, every other row
survives, and deleting an id that matches nothing answers that same
not-found error. -/
theorem C6_delete_removes_and_reports (db : DB) (s : String) (book : Book)
    (hfind : dbFirstById db s = some book) :
    (DeleteBook false db s).resp = ⟨200, .dataBool true⟩ ∧
    book ∉ (DeleteBook false db s).db.books ∧
    (∀ x ∈ db.books, x.id ≠ book.id → x ∈ (DeleteBook false db s).db.books) ∧
    (FindBook (DeleteBook false db s).db s).resp = ⟨400, .errMsg "Record not found!"⟩ ∧
    (∀ db2 s2, dbFirstById db2 s2 = none →
      (DeleteBook false db2 s2).resp = ⟨400, .errMsg "Record not found!"⟩) := by
  have hmatch := dbFirstById_matches hfind
  have hdb : (DeleteBook false db s).db = dbDelete db book := by
    simp [DeleteBook, hfind]
  refine ⟨by simp [DeleteBook, hfind], ?_, ?_, ?_, ?_⟩
  · rw [hdb]
    simp [dbDelete]
  · intro x hx hne
    rw [hdb]
    simp [dbDelete, List.mem_filter, hx, hne]
  · have hnone : dbFirstById (dbDelete db book) s = none := by
      rw [dbFirstById_none_iff]
      intro x hx
      have hx' : x ∈ db.books ∧ ¬x.id = book.id := by simpa [dbDelete] using hx
      cases hmx : matchesId s x.id with
      | false => rfl
      | true =>
        have hxid : x.id = book.id := matchesId_inj hmx hmatch
        exact absurd hxid hx'.2
    rw [hdb]
    simp [FindBook, hnone]
  · intro db2 s2 h2
    simp [DeleteBook, h2]

/-- Witness for C6 at a store holding exactly book 1. -/
theorem C6_delete_removes_and_reports_witness :
    (DeleteBook false ⟨[⟨1, "t", "a"⟩], 2⟩ "1").resp = ⟨200, .dataBool true⟩ ∧
    (⟨1, "t", "a"⟩ : Book) ∉ (DeleteBook false ⟨[⟨1, "t", "a"⟩], 2⟩ "1").db.books ∧
    (∀ x ∈ (⟨[⟨1, "t", "a"⟩], 2⟩ : DB).books, x.id ≠ (⟨1, "t", "a"⟩ : Book).id →
      x ∈ (DeleteBook false ⟨[⟨1, "t", "a"⟩], 2⟩ "1").db.books) ∧
    (FindBook (DeleteBook false ⟨[⟨1, "t", "a"⟩], 2⟩ "1").db "1").resp
      = ⟨400, .errMsg "Record not found!"⟩ ∧
    (∀ db2 s2, dbFirstById db2 s2 = none →
      (DeleteBook false db2 s2).resp = ⟨400, .errMsg "Record not found!"⟩) :=
  C6_delete_removes_and_reports ⟨[⟨1, "t", "a"⟩], 2⟩ "1" ⟨1, "t", "a"⟩ (by decide)

/-- C1: creating a book from a valid payload (non-empty title and
author) answers 200 with the persisted record, and fetching the
returned id afterwards answers 200 with that identical record (same id,
title, author). -/
theorem C1_create_then_find_roundtrip (db : DB) (idf : Option Nat) (t a : String)
    (hwf : WF db) (ht : t ≠ "") (ha : a ≠ "") :
    ∃ b : Book,
      (CreateBook false db (.fields idf (some t) (some a))).resp = ⟨200, .dataBook b⟩ ∧
      b.title = t ∧ b.author = a ∧
      ∀ s, matchesId s b.id = true →
        (FindBook (CreateBook false db (.fields idf (some t) (some a))).db s).resp
          = ⟨200, .dataBook b⟩ := by
  refine ⟨⟨db.nextId, t, a⟩, ?_, rfl, rfl, ?_⟩
  · simp [CreateBook, bindCreate, ht, ha, dbCreate]
  · intro s hs
    have hdb : (CreateBook false db (.fields idf (some t) (some a))).db
        = ⟨db.books ++ [⟨db.nextId, t, a⟩], db.nextId + 1⟩ := by
      simp [CreateBook, bindCreate, ht, ha, dbCreate]
    have hnone : db.books.find? (fun x => matchesId s x.id) = none := by
      rw [List.find?_eq_none]
      intro x hx hmx
      have hxid : x.id = db.nextId := matchesId_inj hmx hs
      exact absurd hxid (Nat.ne_of_lt (hwf.2 x hx))
    have hfound : dbFirstById ⟨db.books ++ [⟨db.nextId, t, a⟩], db.nextId + 1⟩ s
        = some ⟨db.nextId, t, a⟩ := by
      unfold dbFirstById
      rw [List.find?_append, hnone]
      simp [List.find?, hs]
    rw [hdb]
    simp [FindBook, hfound]

/-- Witness for C1 at an empty store and the payload
`{"title": "x", "author": "y"}`. -/
theorem C1_create_then_find_roundtrip_witness :
    ∃ b : Book,
      (CreateBook false ⟨[], 1⟩ (.fields none (some "x") (some "y"))).resp
        = ⟨200, .dataBook b⟩ ∧
      b.title = "x" ∧ b.author = "y" ∧
      ∀ s, matchesId s b.id = true →
        (FindBook (CreateBook false ⟨[], 1⟩ (.fields none (some "x") (some "y"))).db s).resp
          = ⟨200, .dataBook b⟩ :=
  C1_create_then_find_roundtrip ⟨[], 1⟩ none "x" "y" (by decide) (by decide) (by decide)

/-- C2: updating an existing book applies exactly the non-empty fields
of the patch over the existing record — an omitted or empty field keeps
its prior value, the id is kept — the merged record is persisted, and
every other stored row is unchanged. -/
theorem C2_update_merges_only_nonempty_fields (db : DB) (s : String) (idf : Option Nat)
    (t a : Option String) (book : Book) (hfind : dbFirstById db s = some book) :
    ∃ b' : Book,
      (UpdateBook false db s (.fields idf t a)).resp = ⟨200, .dataBook b'⟩ ∧
      b'.id = book.id ∧
      b'.title = (if t.getD "" = "" then book.title else t.getD "") ∧
      b'.author = (if a.getD "" = "" then book.author else a.getD "") ∧
      (UpdateBook false db s (.fields idf t a)).db.books
        = db.books.map (fun x => if x.id = book.id then b' else x) ∧
      b' ∈ (UpdateBook false db s (.fields idf t a)).db.books ∧
      (∀ x ∈ db.books, x.id ≠ book.id → x ∈ (UpdateBook false db s (.fields idf t a)).db.books) ∧
      (UpdateBook false db s (.fields idf t a)).db.nextId = db.nextId := by
  have hmem := dbFirstById_mem hfind
  have hdb : (UpdateBook false db s (.fields idf t a)).db
      = ⟨db.books.map
          (fun x => if x.id = book.id then applyUpdates book ⟨t.getD "", a.getD ""⟩ else x),
        db.nextId⟩ := by
    simp [UpdateBook, hfind, bindUpdate, dbUpdates]
  refine ⟨applyUpdates book ⟨t.getD "", a.getD ""⟩, ?_, rfl, rfl, rfl, ?_, ?_, ?_, ?_⟩
  · simp [UpdateBook, hfind, bindUpdate, dbUpdates]
  · rw [hdb]
  · rw [hdb]
    exact List.mem_map.mpr ⟨book, hmem, by simp⟩
  · intro x hx hne
    rw [hdb]
    exact List.mem_map.mpr ⟨x, hx, by simp [hne]⟩
  · rw [hdb]

/-- Witness for C2: patching only the title of book 1. -/
theorem C2_update_merges_only_nonempty_fields_witness :
    ∃ b' : Book,
      (UpdateBook false ⟨[⟨1, "old", "auth"⟩], 2⟩ "1" (.fields none (some "new") none)).resp
        = ⟨200, .dataBook b'⟩ ∧
      b'.id = (⟨1, "old", "auth"⟩ : Book).id ∧
      b'.title = (if (some "new").getD "" = "" then (⟨1, "old", "auth"⟩ : Book).title
        else (some "new").getD "") ∧
      b'.author = (if (none : Option String).getD "" = "" then (⟨1, "old", "auth"⟩ : Book).author
        else (none : Option String).getD "") ∧
      (UpdateBook false ⟨[⟨1, "old", "auth"⟩], 2⟩ "1" (.fields none (some "new") none)).db.books
        = (⟨[⟨1, "old", "auth"⟩], 2⟩ : DB).books.map
            (fun x => if x.id = (⟨1, "old", "auth"⟩ : Book).id then b' else x) ∧
      b' ∈ (UpdateBook false ⟨[⟨1, "old", "auth"⟩], 2⟩ "1"
        (.fields none (some "new") none)).db.books ∧
      (∀ x ∈ (⟨[⟨1, "old", "auth"⟩], 2⟩ : DB).books, x.id ≠ (⟨1, "old", "auth"⟩ : Book).id →
        x ∈ (UpdateBook false ⟨[⟨1, "old", "auth"⟩], 2⟩ "1"
          (.fields none (some "new") none)).db.books) ∧
      (UpdateBook false ⟨[⟨1, "old", "auth"⟩], 2⟩ "1"
        (.fields none (some "new") none)).db.nextId = (⟨[⟨1, "old", "auth"⟩], 2⟩ : DB).nextId :=
  C2_update_merges_only_nonempty_fields ⟨[⟨1, "old", "auth"⟩], 2⟩ "1" none
    (some "new") none ⟨1, "old", "auth"⟩ (by decide)

/-- C3 counterexample: an update request on an existing id with an
unparseable body fails validation, yet the handler has already made a
storage call — the by-id lookup — so "validation failure implies no
repository call" is false for the update operation. -/
theorem C3_counterexample_update_reads_before_bind :
    bindUpdate .malformed = .error "invalid character" ∧
    (UpdateBook false ⟨[⟨1, "t", "a"⟩], 2⟩ "1" .malformed).resp
      = ⟨400, .errMsg "invalid character"⟩ ∧
    (UpdateBook false ⟨[⟨1, "t", "a"⟩], 2⟩ "1" .malformed).trace = [.firstById "1"] :=
  ⟨rfl, rfl, rfl⟩

/-- C3 amended: on a create request whose payload fails validation —
required-field failure on well-formed JSON or unparseable JSON alike —
the failure happens before any storage access and no repository call is
made; on an update request whose body fails validation the existence
lookup runs first, so the failure is preceded by that one read, but no
mutating storage call is ever made and the store is unchanged. -/
theorem C3_amended_write_short_circuit (db : DB) (bodyC bodyU : JsonBody) (s : String)
    (e e' : String) (hc : bindCreate bodyC = .error e) (hu : bindUpdate bodyU = .error e') :
    (CreateBook false db bodyC).trace = [] ∧
    (CreateBook false db bodyC).db = db ∧
    (∀ op ∈ (UpdateBook false db s bodyU).trace, op.isMutation = false) ∧
    (UpdateBook false db s bodyU).db = db := by
  refine ⟨by simp [CreateBook, hc], by simp [CreateBook, hc], ?_, ?_⟩
  · intro op hop
    cases hf : dbFirstById db s with
    | none =>
      simp [UpdateBook, hf] at hop
      subst hop
      rfl
    | some book =>
      simp [UpdateBook, hf, hu] at hop
      subst hop
      rfl
  · cases hf : dbFirstById db s with
    | none => simp [UpdateBook, hf]
    | some book => simp [UpdateBook, hf, hu]

/-- Witness for the amended C3: the create body is well-formed JSON
failing the `required` check (empty title), the update body is
malformed JSON. -/
theorem C3_amended_write_short_circuit_witness :
    (CreateBook false ⟨[], 1⟩ (.fields none (some "") (some "a"))).trace = [] ∧
    (CreateBook false ⟨[], 1⟩ (.fields none (some "") (some "a"))).db = ⟨[], 1⟩ ∧
    (∀ op ∈ (UpdateBook false ⟨[], 1⟩ "1" .malformed).trace, op.isMutation = false) ∧
    (UpdateBook false ⟨[], 1⟩ "1" .malformed).db = ⟨[], 1⟩ :=
  C3_amended_write_short_circuit ⟨[], 1⟩ (.fields none (some "") (some "a")) .malformed "1"
    "Field validation for Title failed on the required tag" "invalid character" rfl rfl

/-- C4 counterexample: when the storage call of `DB.Create` fails (the
handler discards its error), `CreateBook` still answers 200 success with
an unpersisted record, and likewise `DeleteBook` answers
`{"data": true}` when `DB.Delete` fails — a storage failure leaving the
handler responding with success. -/
theorem C4_counterexample_swallowed_storage_failure :
    (CreateBook true ⟨[], 1⟩ (.fields none (some "t") (some "a"))).resp
      = ⟨200, .dataBook ⟨0, "t", "a"⟩⟩ ∧
    (CreateBook true ⟨[], 1⟩ (.fields none (some "t") (some "a"))).db = ⟨[], 1⟩ ∧
    (DeleteBook true ⟨[⟨1, "t", "a"⟩], 2⟩ "1").resp = ⟨200, .dataBool true⟩ ∧
    (DeleteBook true ⟨[⟨1, "t", "a"⟩], 2⟩ "1").db = ⟨[⟨1, "t", "a"⟩], 2⟩ :=
  ⟨rfl, rfl, rfl, rfl⟩

/-- C4 amended: failures of the checked calls are reported — a failed
by-id lookup answers the fixed not-found error and a failed storage
connection at startup panics — but the handlers discard the errors of
`DB.Create`, `Updates` and `DB.Delete`: whether or not that mutating
call fails, the response status is the same, so those failures are
silently swallowed rather than reported. -/
theorem C4_amended_error_reporting (db : DB) (s : String) (body : JsonBody)
    (hnone : dbFirstById db s = none) :
    ConnectDatabase false = .panicked "Failed to connect to database!" ∧
    (FindBook db s).resp = ⟨400, .errMsg "Record not found!"⟩ ∧
    (∀ f, (UpdateBook f db s body).resp = ⟨400, .errMsg "Record not found!"⟩) ∧
    (∀ f, (DeleteBook f db s).resp = ⟨400, .errMsg "Record not found!"⟩) ∧
    (∀ f db2 body2,
      (CreateBook f db2 body2).resp.status = (CreateBook false db2 body2).resp.status) ∧
    (∀ f db2 s2 body2,
      (UpdateBook f db2 s2 body2).resp.status = (UpdateBook false db2 s2 body2).resp.status) ∧
    (∀ f db2 s2,
      (DeleteBook f db2 s2).resp.status = (DeleteBook false db2 s2).resp.status) := by
  refine ⟨rfl, by simp [FindBook, hnone], fun f => by simp [UpdateBook, hnone],
    fun f => by simp [DeleteBook, hnone], ?_, ?_, ?_⟩
  · intro f db2 body2
    cases hb : bindCreate body2 with
    | error e => simp [CreateBook, hb]
    | ok input => cases f <;> simp [CreateBook, hb]
  · intro f db2 s2 body2
    cases hf : dbFirstById db2 s2 with
    | none => simp [UpdateBook, hf]
    | some book =>
      cases hb : bindUpdate body2 with
      | error e => simp [UpdateBook, hf, hb]
      | ok input => cases f <;> simp [UpdateBook, hf, hb]
  · intro f db2 s2
    cases hf : dbFirstById db2 s2 with
    | none => simp [DeleteBook, hf]
    | some book => cases f <;> simp [DeleteBook, hf]

/-- Witness for the amended C4 at an empty store. -/
theorem C4_amended_error_reporting_witness :
    ConnectDatabase false = .panicked "Failed to connect to database!" ∧
    (FindBook ⟨[], 1⟩ "1").resp = ⟨400, .errMsg "Record not found!"⟩ ∧
    (∀ f, (UpdateBook f ⟨[], 1⟩ "1" .malformed).resp = ⟨400, .errMsg "Record not found!"⟩) ∧
    (∀ f, (DeleteBook f ⟨[], 1⟩ "1").resp = ⟨400, .errMsg "Record not found!"⟩) ∧
    (∀ f db2 body2,
      (CreateBook f db2 body2).resp.status = (CreateBook false db2 body2).resp.status) ∧
    (∀ f db2 s2 body2,
      (UpdateBook f db2 s2 body2).resp.status = (UpdateBook false db2 s2 body2).resp.status) ∧
    (∀ f db2 s2,
      (DeleteBook f db2 s2).resp.status = (DeleteBook false db2 s2).resp.status) :=
  C4_amended_error_reporting ⟨[], 1⟩ "1" .malformed (by decide)

/-- C9 counterexample: `main.go` registers no PATCH route, so a PATCH
request to `/books/1` matches no route — the update handler does not
run and Gin answers its default 404 — refuting "both PUT and PATCH
invoke the update operation". -/
theorem C9_counterexample_patch_unrouted :
    route .PATCH (.booksId "1") = none ∧
    handleRequest ⟨[⟨1, "t", "a"⟩], 2⟩ .PATCH (.booksId "1")
      (.fields none (some "x") none) = none :=
  ⟨rfl, rfl⟩

/-- C9 amended: only PUT on `/books/{id}` is routed to the update
handler, which then answers 200 success or a 400 not-found/validation
error; PATCH on that path matches no route in `main.go` and no handler
runs. -/
theorem C9_amended_put_routes_update (db : DB) (s : String) (body : JsonBody) :
    route .PUT (.booksId s) = some .updateBook ∧
    handleRequest db .PUT (.booksId s) body = some (UpdateBook false db s body) ∧
    route .PATCH (.booksId s) = none ∧
    handleRequest db .PATCH (.booksId s) body = none ∧
    ((UpdateBook false db s body).resp.status = 200 ∨
      (UpdateBook false db s body).resp.status = 400) := by
  refine ⟨rfl, rfl, rfl, rfl, ?_⟩
  cases hf : dbFirstById db s with
  | none => exact Or.inr (by simp [UpdateBook, hf])
  | some book =>
    cases hb : bindUpdate body with
    | error e => exact Or.inr (by simp [UpdateBook, hf, hb])
    | ok input => exact Or.inl (by simp [UpdateBook, hf, hb])

/-- C8: ids are system-generated and immutable — `CreateBook` ignores
any `id` member of the request body (the schema has no ID field), the
only id a create can add is the storage-assigned counter value, an
update never changes any row's id — and a well-formed store (pairwise
distinct ids, all below the counter) stays well-formed under every
operation. -/
theorem C8_id_generated_immutable_unique (db : DB) (s : String) (body : JsonBody)
    (idf idf2 : Option Nat) (t a : Option String) (hwf : WF db) :
    CreateBook false db (.fields idf t a) = CreateBook false db (.fields idf2 t a) ∧
    (∀ r ∈ (CreateBook false db body).db.books, r ∈ db.books ∨ r.id = db.nextId) ∧
    (UpdateBook false db s body).db.books.map Book.id = db.books.map Book.id ∧
    WF (CreateBook false db body).db ∧
    WF (UpdateBook false db s body).db ∧
    WF (DeleteBook false db s).db ∧
    WF (FindBook db s).db ∧
    WF (FindBooks db).db := by
  have hUpd : ∀ book : Book, ∀ input : UpdateBookInput,
      ∀ x : Book, (if x.id = book.id then applyUpdates book input else x).id = x.id := by
    intro book input x
    by_cases hid : x.id = book.id
    · simp [hid, applyUpdates]
    · simp [hid]
  have hCreateDb : ∀ bd : JsonBody, (CreateBook false db bd).db = db ∨
      ∃ input, bindCreate bd = .ok input ∧
        (CreateBook false db bd).db
          = ⟨db.books ++ [⟨db.nextId, input.Title, input.Author⟩], db.nextId + 1⟩ := by
    intro bd
    cases hb : bindCreate bd with
    | error e => exact Or.inl (by simp [CreateBook, hb])
    | ok input => exact Or.inr ⟨input, rfl, by simp [CreateBook, hb, dbCreate]⟩
  have hUpdDb : (UpdateBook false db s body).db = db ∨
      ∃ book input, dbFirstById db s = some book ∧
        (UpdateBook false db s body).db
          = ⟨db.books.map (fun x => if x.id = book.id then applyUpdates book input else x),
            db.nextId⟩ := by
    cases hf : dbFirstById db s with
    | none => exact Or.inl (by simp [UpdateBook, hf])
    | some book =>
      cases hb : bindUpdate body with
      | error e => exact Or.inl (by simp [UpdateBook, hf, hb])
      | ok input =>
        exact Or.inr ⟨book, input, rfl, by simp [UpdateBook, hf, hb, dbUpdates]⟩
  have hwfCreate : WF (CreateBook false db body).db := by
    rcases hCreateDb body with h | ⟨input, _, h⟩
    · rw [h]; exact hwf
    · rw [h]
      constructor
      · rw [List.pairwise_append]
        refine ⟨hwf.1, by simp, ?_⟩
        intro x hx y hy
        have : y = ⟨db.nextId, input.Title, input.Author⟩ := by simpa using hy
        rw [this]
        exact Nat.ne_of_lt (hwf.2 x hx)
      · intro x hx
        rcases List.mem_append.mp hx with h1 | h2
        · exact Nat.lt_trans (hwf.2 x h1) (Nat.lt_succ_self _)
        · have : x = ⟨db.nextId, input.Title, input.Author⟩ := by simpa using h2
          rw [this]
          exact Nat.lt_succ_self _
  have hwfUpdate : WF (UpdateBook false db s body).db := by
    rcases hUpdDb with h | ⟨book, input, _, h⟩
    · rw [h]; exact hwf
    · rw [h]
      constructor
      · refine List.pairwise_map.mpr (hwf.1.imp ?_)
        intro x y hxy
        rw [hUpd book input x, hUpd book input y]
        exact hxy
      · intro x hx
        rcases List.mem_map.mp hx with ⟨y, hy, hxy⟩
        rw [← hxy, hUpd book input y]
        exact hwf.2 y hy
  refine ⟨rfl, ?_, ?_, hwfCreate, hwfUpdate, ?_, ?_, by simpa [FindBooks] using hwf⟩
  · intro r hr
    rcases hCreateDb body with h | ⟨input, _, h⟩
    · rw [h] at hr; exact Or.inl hr
    · rw [h] at hr
      rcases List.mem_append.mp hr with h1 | h2
      · exact Or.inl h1
      · have : r = ⟨db.nextId, input.Title, input.Author⟩ := by simpa using h2
        exact Or.inr (by rw [this])
  · rcases hUpdDb with h | ⟨book, input, _, h⟩
    · rw [h]
    · rw [h]
      rw [List.map_map]
      exact List.map_congr_left (fun x _ => hUpd book input x)
  · cases hf : dbFirstById db s with
    | none => simpa [DeleteBook, hf] using hwf
    | some book =>
      have h : (DeleteBook false db s).db = dbDelete db book := by
        simp [DeleteBook, hf]
      rw [h]
      constructor
      · exact hwf.1.sublist (List.filter_sublist _)
      · intro x hx
        have hx' : x ∈ db.books ∧ ¬x.id = book.id := by simpa [dbDelete] using hx
        exact hwf.2 x hx'.1
  · cases hf : dbFirstById db s with
    | none => simpa [FindBook, hf] using hwf
    | some b => simpa [FindBook, hf] using hwf

/-- Witness for C8 at a store holding book 1 and a patch body. -/
theorem C8_id_generated_immutable_unique_witness :
    CreateBook false ⟨[⟨1, "t", "a"⟩], 2⟩ (.fields (some 9) (some "x") (some "y"))
      = CreateBook false ⟨[⟨1, "t", "a"⟩], 2⟩ (.fields none (some "x") (some "y")) ∧
    (∀ r ∈ (CreateBook false ⟨[⟨1, "t", "a"⟩], 2⟩ (.fields none (some "x") (some "y"))).db.books,
      r ∈ (⟨[⟨1, "t", "a"⟩], 2⟩ : DB).books ∨ r.id = (⟨[⟨1, "t", "a"⟩], 2⟩ : DB).nextId) ∧
    (UpdateBook false ⟨[⟨1, "t", "a"⟩], 2⟩ "1"
        (.fields none (some "x") (some "y"))).db.books.map Book.id
      = (⟨[⟨1, "t", "a"⟩], 2⟩ : DB).books.map Book.id ∧
    WF (CreateBook false ⟨[⟨1, "t", "a"⟩], 2⟩ (.fields none (some "x") (some "y"))).db ∧
    WF (UpdateBook false ⟨[⟨1, "t", "a"⟩], 2⟩ "1" (.fields none (some "x") (some "y"))).db ∧
    WF (DeleteBook false ⟨[⟨1, "t", "a"⟩], 2⟩ "1").db ∧
    WF (FindBook ⟨[⟨1, "t", "a"⟩], 2⟩ "1").db ∧
    WF (FindBooks ⟨[⟨1, "t", "a"⟩], 2⟩).db :=
  C8_id_generated_immutable_unique ⟨[⟨1, "t", "a"⟩], 2⟩ "1"
    (.fields none (some "x") (some "y")) (some 9) none (some "x") (some "y") (by decide)
